import Mathlib

/-!
Verification of the pyTMD tidal-prediction library against its
natural-language specification.

The development shallowly embeds the parts of the code base that the
verified properties are about:

* the constituent catalog and its name/Doodson-number operations
  (the `pyTMD.constituents` module is not part of the provided sources,
  so it is modelled from the specification and from the expected values
  recorded in the repository's own test suite);
* the amplitude/phase extraction arithmetic of `pyTMD/io/FES.py` and of
  the `DataArray` accessor in `pyTMD/io/dataset.py`, over the real and
  complex numbers;
* the delta-time dispatch of `pyTMD/compute.py`;
* the constituent listing of the `Dataset` accessor in
  `pyTMD/io/dataset.py`;
* the regular-grid branch of `extract_constants` and of
  `interpolate_constants` in `pyTMD/io/FES.py`.

Machine floating point is idealised as real/rational arithmetic; masked
numpy arrays are idealised as `Option`-valued entries.
-/

namespace PyTMD

/-! ## Constituent name parsing

Modelled from the spec: the `pyTMD.constituents` module is not among the
provided sources.  The spec (section 4.2) describes the resolver as
case-insensitive, stripping surrounding non-alphanumeric padding, and
applying a fixed alias table, failing for unknown names.  The canonical
name list and alias table are those recorded in
`test/test_constituents.py`.
-/

/-- Canonical constituent names of the catalog (the index used by
`test_constituents` in `test/test_constituents.py`). -/
def cindex : List String :=
  ["sa", "ssa", "mm", "msf", "mt", "mf", "alpha1", "2q1", "sigma1",
   "q1", "rho1", "o1", "tau1", "m1", "chi1", "pi1", "p1", "s1", "k1", "psi1",
   "phi1", "beta1", "theta1", "j1", "oo1", "2n2", "mu2", "n2", "nu2", "m2",
   "m2a", "m2b", "lambda2", "l2", "t2", "s2", "alpha2", "beta2", "delta2",
   "gamma2", "r2", "k2", "eta2", "mns2", "2sm2", "m3", "mk3", "s3", "mn4",
   "m4", "ms4", "mk4", "so1", "s4", "s5", "m6", "s6", "s7", "s8", "m8", "mks2",
   "msqm", "mtm", "n4", "eps2", "ups1", "z0", "node"]

/-- Fixed alias table remapping legacy constituent spellings to their
canonical names (from `test_remapping` in `test/test_constituents.py`). -/
def aliasTable : List (String × String) :=
  [("2n", "2n2"), ("alp1", "alpha1"), ("alp2", "alpha2"),
   ("bet1", "beta1"), ("bet2", "beta2"), ("del2", "delta2"),
   ("e2", "eps2"), ("ep2", "eps2"), ("gam2", "gamma2"),
   ("la2", "lambda2"), ("lam2", "lambda2"), ("lm2", "lambda2"),
   ("msq", "msqm"), ("omega0", "node"), ("om0", "node"),
   ("rho", "rho1"), ("sig1", "sigma1"),
   ("the", "theta1"), ("the1", "theta1")]

/-- Lowercase a string character by character. -/
def strToLower (s : String) : String :=
  String.mk (s.toList.map Char.toLower)

/-- Strip surrounding non-alphanumeric characters from a string. -/
def stripPadding (s : String) : String :=
  let l := s.toList.dropWhile (fun ch => !ch.isAlphanum)
  String.mk ((l.reverse.dropWhile (fun ch => !ch.isAlphanum)).reverse)

/-- Modelled from the spec: `pyTMD.constituents._parse_name` (module not in
the provided sources).  Resolution is case-insensitive, strips surrounding
non-alphanumeric padding, applies the fixed alias table, and fails
(`none`, standing for the raised error) when no match remains. -/
def parseName (s : String) : Option String :=
  let t := stripPadding (strToLower s)
  if t ∈ cindex then some t
  else (aliasTable.lookup t).casesOn none some

/-- Uppercase a string character by character (test input forms). -/
def strToUpper (s : String) : String :=
  String.mk (s.toList.map Char.toUpper)

/-- Right-pad a string with spaces to a width of ten characters, after the
Python format expression used by the tests. -/
def padTen (s : String) : String :=
  s ++ String.mk (List.replicate (10 - s.length) ' ')

/-! ## Doodson numbers

Modelled from the spec: the `pyTMD.constituents` module is not among the
provided sources.  The spec describes a Doodson number as a 6-digit
encoding, one digit per fundamental argument, each offset by `+5` except
the first, derived deterministically from the Cartwright coefficients,
and an "extended" 7-character alphabetic (UKHO) form.  The catalog data
below records, for each constituent, its seven Cartwright coefficients
`(tau, s, h, p, n, p1, shell)`; the values are those pinned down by the
expected outputs in `test/test_constituents.py`.
-/

/-- Cartwright coefficient catalog: constituent name to the seven
coefficients `(tau, s, h, p, n, p1, shell)`.  The constituents `f3` and
`j3` share the same coefficients: a known multi-constituent collision. -/
def doodsonCatalog : List (String × List ℤ) :=
  [("m2", [2, 0, 0, 0, 0, 0, 0]),
   ("s2", [2, 2, -2, 0, 0, 0, 0]),
   ("n2", [2, -1, 0, 1, 0, 0, 0]),
   ("nu2", [2, -1, 2, -1, 0, 0, 0]),
   ("mu2", [2, -2, 2, 0, 0, 0, 0]),
   ("2n2", [2, -2, 0, 2, 0, 0, 0]),
   ("lambda2", [2, 1, -2, 1, 0, 0, 2]),
   ("l2", [2, 1, 0, -1, 0, 0, 2]),
   ("k2", [2, 2, 0, 0, 0, 0, 0]),
   ("m1", [1, 0, 0, 0, 0, 0, 1]),
   ("s1", [1, 1, -1, 0, 0, 0, 1]),
   ("o1", [1, -1, 0, 0, 0, 0, -1]),
   ("oo1", [1, 3, 0, 0, 0, 0, 1]),
   ("k1", [1, 1, 0, 0, 0, 0, 1]),
   ("q1", [1, -2, 0, 1, 0, 0, -1]),
   ("2q1", [1, -3, 0, 2, 0, 0, -1]),
   ("p1", [1, 1, -2, 0, 0, 0, -1]),
   ("mm", [0, 1, 0, -1, 0, 0, 0]),
   ("ssa", [0, 0, 2, 0, 0, 0, 0]),
   ("msf", [0, 2, -2, 0, 0, 0, 0]),
   ("mf", [0, 2, 0, 0, 0, 0, 0]),
   ("msqm", [0, 4, -2, 0, 0, 0, 0]),
   ("mtm", [0, 3, 0, -1, 0, 0, 0]),
   ("node", [0, 0, 0, 0, 1, 0, 2]),
   ("m3", [3, 0, 0, 0, 0, 0, 0]),
   ("m4", [4, 0, 0, 0, 0, 0, 0]),
   ("n4", [4, -2, 0, 2, 0, 0, 0]),
   ("m6", [6, 0, 0, 0, 0, 0, 0]),
   ("n6", [6, -3, 0, 3, 0, 0, 0]),
   ("m8", [8, 0, 0, 0, 0, 0, 0]),
   ("m10", [10, 0, 0, 0, 0, 0, 0]),
   ("m12", [12, 0, 0, 0, 0, 0, 0]),
   ("2so3", [3, 5, -4, 0, 0, 0, 1]),
   ("2jp3", [3, 5, -2, -2, 0, 0, 1]),
   ("kso3", [3, 5, -2, 0, 0, 0, 1]),
   ("2jk3", [3, 5, -1, -2, 0, 0, 0]),
   ("2ko3", [3, 5, 0, 0, 0, 0, 1]),
   ("f3", [3, 2, 0, 0, 0, 0, 0]),
   ("j3", [3, 2, 0, 0, 0, 0, 0])]

/-- A Doodson number: either the numeric 6-digit form `dds.dds` (held
exactly as an integer count of thousandths, so that `255555` denotes the
value `255.555`) or, when a digit exceeds 9, the string form in which the
digit ten is written `X` (shallow-water constituents). -/
inductive DoodsonNumber where
  | num : ℤ → DoodsonNumber
  | str : String → DoodsonNumber
  deriving DecidableEq, Repr

/-- The exact rational value denoted by a numeric Doodson number. -/
def DoodsonNumber.ratValue : DoodsonNumber → Option ℚ
  | DoodsonNumber.num n => some ((n : ℚ) / 1000)
  | DoodsonNumber.str _ => none

/-- The six Doodson digits of a coefficient vector: the first coefficient
unoffset, the following five offset by `+5`. -/
def doodsonDigits (c : List ℤ) : Option (List ℤ) :=
  match c with
  | c0 :: c1 :: c2 :: c3 :: c4 :: c5 :: _ =>
      some [c0, c1 + 5, c2 + 5, c3 + 5, c4 + 5, c5 + 5]
  | _ => none

/-- Character for a single Doodson digit (`X` denotes ten). -/
def doodsonDigitChar (d : ℤ) : Option Char :=
  if 0 ≤ d ∧ d ≤ 9 then some (Char.ofNat (48 + d.toNat))
  else if d = 10 then some 'X'
  else none

/-- Modelled from the spec: `pyTMD.constituents._to_doodson_number`
(module not in the provided sources).  Encodes Cartwright coefficients as
a Doodson number: numeric when all six digits are decimal, the `X` string
form when a digit equals ten, undefined otherwise. -/
def toDoodsonNumber (c : List ℤ) : Option DoodsonNumber :=
  (doodsonDigits c).bind fun d =>
    match d with
    | [d0, d1, d2, d3, d4, d5] =>
        if [d0, d1, d2, d3, d4, d5].all (fun x => 0 ≤ x ∧ x ≤ 9) then
          some (DoodsonNumber.num
            ((100 * d0 + 10 * d1 + d2) * 1000 +
             (100 * d3 + 10 * d4 + d5)))
        else
          (doodsonDigitChar d0).bind fun a =>
          (doodsonDigitChar d1).bind fun b =>
          (doodsonDigitChar d2).bind fun c2 =>
          (doodsonDigitChar d3).bind fun e =>
          (doodsonDigitChar d4).bind fun f =>
          (doodsonDigitChar d5).bind fun g =>
          some (DoodsonNumber.str (String.mk [a, b, c2, '.', e, f, g]))
    | _ => none

/-- Value of a single Doodson digit character (`X` denotes ten). -/
def doodsonCharDigit (ch : Char) : Option ℤ :=
  if ch = 'X' then some 10
  else if '0' ≤ ch ∧ ch ≤ '9' then some ((ch.toNat : ℤ) - 48)
  else none

/-- Modelled from the spec: `pyTMD.constituents._from_doodson_number`
(module not in the provided sources).  Decodes a Doodson number back to
the six Cartwright coefficients, removing the `+5` offsets. -/
def fromDoodsonNumber (v : DoodsonNumber) : Option (List ℤ) :=
  match v with
  | DoodsonNumber.num t =>
      if 0 ≤ t then
        let n := t.toNat
        some [(n / 100000 : ℤ),
              ((n / 10000) % 10 : ℤ) - 5,
              ((n / 1000) % 10 : ℤ) - 5,
              ((n / 100) % 10 : ℤ) - 5,
              ((n / 10) % 10 : ℤ) - 5,
              (n % 10 : ℤ) - 5]
      else none
  | DoodsonNumber.str s =>
      match s.toList with
      | [a, b, c, dot, e, f, g] =>
          if dot = '.' then
            (doodsonCharDigit a).bind fun d0 =>
            (doodsonCharDigit b).bind fun d1 =>
            (doodsonCharDigit c).bind fun d2 =>
            (doodsonCharDigit e).bind fun d3 =>
            (doodsonCharDigit f).bind fun d4 =>
            (doodsonCharDigit g).bind fun d5 =>
            some [d0, d1 - 5, d2 - 5, d3 - 5, d4 - 5, d5 - 5]
          else none
      | _ => none

/-- Letter for a single coefficient in the UKHO extended Doodson form:
zero is `Z`, positive coefficients count up from `A`, negative
coefficients count down from `Y`. -/
def extendedChar (v : ℤ) : Option Char :=
  if v = 0 then some 'Z'
  else if 1 ≤ v ∧ v ≤ 14 then some (Char.ofNat (64 + v.toNat))
  else if -4 ≤ v ∧ v ≤ -1 then some (Char.ofNat ((90 + v).toNat))
  else none

/-- Coefficient denoted by a single UKHO extended Doodson letter. -/
def extendedCharValue (ch : Char) : Option ℤ :=
  if ch = 'Z' then some 0
  else if 'A' ≤ ch ∧ ch ≤ 'N' then some ((ch.toNat : ℤ) - 64)
  else if 'V' ≤ ch ∧ ch ≤ 'Y' then some ((ch.toNat : ℤ) - 90)
  else none

/-- Modelled from the spec: the UKHO "extended" 7-character alphabetic
Doodson encoding produced by `pyTMD.constituents.doodson_number` with the
`Extended` formalism (module not in the provided sources). -/
def toExtendedDoodson (c : List ℤ) : Option String :=
  match c with
  | [c0, c1, c2, c3, c4, c5, c6] =>
      ([c0, c1, c2, c3, c4, c5, c6].mapM extendedChar).map String.mk
  | _ => none

/-- Modelled from the spec: `pyTMD.constituents._from_extended_doodson`
(module not in the provided sources).  Decodes the 7-letter UKHO form to
the seven Cartwright coefficients. -/
def fromExtendedDoodson (s : String) : Option (List ℤ) :=
  if s.length = 7 then s.toList.mapM extendedCharValue else none

instance {ε α : Type} [DecidableEq ε] [DecidableEq α] :
    DecidableEq (Except ε α) := fun x y =>
  match x, y with
  | Except.ok a, Except.ok b =>
      if h : a = b then isTrue (by rw [h])
      else isFalse (fun hh => by cases hh; exact h rfl)
  | Except.error a, Except.error b =>
      if h : a = b then isTrue (by rw [h])
      else isFalse (fun hh => by cases hh; exact h rfl)
  | Except.ok _, Except.error _ => isFalse (fun h => by cases h)
  | Except.error _, Except.ok _ => isFalse (fun h => by cases h)

/-- Modelled from the spec: `pyTMD.constituents._to_constituent_id`
(module not in the provided sources).  Finds the catalog constituent with
the given Cartwright coefficients; an ambiguous match (a Doodson-number
collision between several constituents) is surfaced as an error, never
silently resolved to one of the candidates. -/
def toConstituentID (c : List ℤ) : Except String String :=
  match doodsonCatalog.filter (fun e => e.2 = c) with
  | [] => Except.error "unknown constituent"
  | [e] => Except.ok e.1
  | _ => Except.error "ambiguous Doodson number"

/-- A constituent does not collide with another at the level of the six
Doodson digits (used by the numeric round-trip property). -/
def nonCollidingSix (e : String × List ℤ) : Prop :=
  (doodsonCatalog.filter (fun x => x.2.take 6 = e.2.take 6)).length = 1

instance (e : String × List ℤ) : Decidable (nonCollidingSix e) := by
  unfold nonCollidingSix; infer_instance

/-- A constituent does not collide with another at the level of all seven
Cartwright coefficients (used by the extended round-trip property). -/
def nonCollidingSeven (e : String × List ℤ) : Prop :=
  (doodsonCatalog.filter (fun x => x.2 = e.2)).length = 1

instance (e : String × List ℤ) : Decidable (nonCollidingSeven e) := by
  unfold nonCollidingSeven; infer_instance

/-- Modelled from the spec: `pyTMD.constituents.doodson_number` for a
single constituent name (module not in the provided sources). -/
def doodsonNumber (name : String) : Option DoodsonNumber :=
  (doodsonCatalog.lookup name).bind toDoodsonNumber

/-- Modelled from the spec: `pyTMD.constituents.doodson_number` applied
to a list of constituent names. -/
def doodsonNumberList (names : List String) : Option (List DoodsonNumber) :=
  names.mapM doodsonNumber

/-- Expected Doodson numbers of the catalogued constituents, as recorded
in `test_doodson` of `test/test_constituents.py` (numeric values held in
thousandths: `255555` denotes `255.555`). -/
def expectedDoodson : List (String × DoodsonNumber) :=
  [("m2", DoodsonNumber.num 255555),
   ("s2", DoodsonNumber.num 273555),
   ("n2", DoodsonNumber.num 245655),
   ("nu2", DoodsonNumber.num 247455),
   ("mu2", DoodsonNumber.num 237555),
   ("2n2", DoodsonNumber.num 235755),
   ("lambda2", DoodsonNumber.num 263655),
   ("l2", DoodsonNumber.num 265455),
   ("k2", DoodsonNumber.num 275555),
   ("m1", DoodsonNumber.num 155555),
   ("s1", DoodsonNumber.num 164555),
   ("o1", DoodsonNumber.num 145555),
   ("oo1", DoodsonNumber.num 185555),
   ("k1", DoodsonNumber.num 165555),
   ("q1", DoodsonNumber.num 135655),
   ("2q1", DoodsonNumber.num 125755),
   ("p1", DoodsonNumber.num 163555),
   ("mm", DoodsonNumber.num 65455),
   ("ssa", DoodsonNumber.num 57555),
   ("msf", DoodsonNumber.num 73555),
   ("mf", DoodsonNumber.num 75555),
   ("msqm", DoodsonNumber.num 93555),
   ("mtm", DoodsonNumber.num 85455),
   ("node", DoodsonNumber.num 55565),
   ("m3", DoodsonNumber.num 355555),
   ("m4", DoodsonNumber.num 455555),
   ("m6", DoodsonNumber.num 655555),
   ("m8", DoodsonNumber.num 855555),
   ("2so3", DoodsonNumber.str "3X1.555"),
   ("2jp3", DoodsonNumber.str "3X3.355"),
   ("kso3", DoodsonNumber.str "3X3.555"),
   ("2jk3", DoodsonNumber.str "3X4.355"),
   ("2ko3", DoodsonNumber.str "3X5.555")]

end PyTMD

namespace PyTMD

/-- C3: constituent name resolution is case-insensitive, strips
surrounding non-alphanumeric padding and whitespace, and applies the
fixed alias table; for every canonical catalog name the resolver is the
identity, also on the uppercase form, on the underscore-padded form and
on the space-padded form. -/
theorem name_resolution_idempotent :
    (∀ c ∈ cindex,
      parseName c = some c ∧
      parseName (strToUpper c) = some c ∧
      parseName ("_" ++ c ++ "_") = some c ∧
      parseName (padTen c) = some c) ∧
    (∀ m ∈ aliasTable,
      parseName m.1 = some m.2 ∧
      parseName (strToUpper m.1) = some m.2 ∧
      parseName ("_" ++ m.1 ++ "_") = some m.2 ∧
      parseName (padTen m.1) = some m.2) := by
  constructor
  · decide
  · decide

/-- Witness for the name-resolution theorem at the constituent `m2` and
the alias `om0`. -/
theorem name_resolution_idempotent_witness :
    (parseName "m2" = some "m2" ∧
      parseName (strToUpper "m2") = some "m2" ∧
      parseName ("_" ++ "m2" ++ "_") = some "m2" ∧
      parseName (padTen "m2") = some "m2") ∧
    (parseName "om0" = some "node" ∧
      parseName (strToUpper "om0") = some "node" ∧
      parseName ("_" ++ "om0" ++ "_") = some "node" ∧
      parseName (padTen "om0") = some "node") :=
  ⟨name_resolution_idempotent.1 "m2" (by decide),
   name_resolution_idempotent.2 ("om0", "node") (by decide)⟩

/-- C1: the Doodson numbers of the catalogued constituents are the fixed
values recorded in the test suite, both when queried one name at a time
and when queried with the whole list of names; in particular `m2` maps to
exactly `255.555`, `k1` to `165.555`, `node` to `055.565`, `s2` to
`273.555` and `mf` to `075.555`. -/
theorem doodson_number_values :
    (∀ p ∈ expectedDoodson, doodsonNumber p.1 = some p.2) ∧
    doodsonNumberList (expectedDoodson.map Prod.fst) =
      some (expectedDoodson.map Prod.snd) ∧
    (doodsonNumber "m2").bind DoodsonNumber.ratValue = some (255.555 : ℚ) ∧
    (doodsonNumber "k1").bind DoodsonNumber.ratValue = some (165.555 : ℚ) ∧
    (doodsonNumber "node").bind DoodsonNumber.ratValue = some (55.565 : ℚ) ∧
    (doodsonNumber "s2").bind DoodsonNumber.ratValue = some (273.555 : ℚ) ∧
    (doodsonNumber "mf").bind DoodsonNumber.ratValue = some (75.555 : ℚ) := by
  refine ⟨by decide, by decide, ?_, ?_, ?_, ?_, ?_⟩
  · rw [show doodsonNumber "m2" = some (DoodsonNumber.num 255555) by decide]
    show some (((255555 : ℤ) : ℚ) / 1000) = _
    norm_num
  · rw [show doodsonNumber "k1" = some (DoodsonNumber.num 165555) by decide]
    show some (((165555 : ℤ) : ℚ) / 1000) = _
    norm_num
  · rw [show doodsonNumber "node" = some (DoodsonNumber.num 55565) by decide]
    show some (((55565 : ℤ) : ℚ) / 1000) = _
    norm_num
  · rw [show doodsonNumber "s2" = some (DoodsonNumber.num 273555) by decide]
    show some (((273555 : ℤ) : ℚ) / 1000) = _
    norm_num
  · rw [show doodsonNumber "mf" = some (DoodsonNumber.num 75555) by decide]
    show some (((75555 : ℤ) : ℚ) / 1000) = _
    norm_num

/-- Witness for the Doodson-number theorem at the constituent `m2`. -/
theorem doodson_number_values_witness :
    doodsonNumber "m2" = some (DoodsonNumber.num 255555) :=
  doodson_number_values.1 ("m2", DoodsonNumber.num 255555) (by decide)

end PyTMD

namespace PyTMD

/-- C2: for every constituent whose six Doodson digits do not collide
with another catalog entry, converting the Cartwright coefficients to a
Doodson number and back recovers the six coefficients exactly; for every
constituent whose seven coefficients are unambiguous, the UKHO extended
Doodson encoding decodes back to the constituent identifier; and a
coefficient vector shared by several constituents is reported as an
ambiguity, never silently resolved (the pair `f3`/`j3` realises such a
collision).  The 6-digit round trip is stated for the constituents that
possess a 6-digit form (all of the catalog except `m12`, whose leading
digit twelve is only representable in the extended alphabetic form). -/
theorem doodson_round_trip :
    (∀ e ∈ doodsonCatalog, nonCollidingSix e →
      (toDoodsonNumber e.2).isSome →
      (toDoodsonNumber e.2).bind fromDoodsonNumber = some (e.2.take 6)) ∧
    (∀ e ∈ doodsonCatalog, nonCollidingSeven e →
      ((toExtendedDoodson e.2).bind fromExtendedDoodson).elim
        (Except.error "") toConstituentID = Except.ok e.1) ∧
    (∀ c : List ℤ,
      2 ≤ (doodsonCatalog.filter (fun e => e.2 = c)).length →
      toConstituentID c = Except.error "ambiguous Doodson number") ∧
    2 ≤ (doodsonCatalog.filter
          (fun e => e.2 = [3, 2, 0, 0, 0, 0, 0])).length := by
  refine ⟨by decide, by decide, ?_, by decide⟩
  intro c h
  unfold toConstituentID
  split
  · rename_i h'
    rw [h'] at h
    simp at h
  · rename_i e h'
    rw [h'] at h
    simp at h
  · rfl

/-- Witness for the Doodson round-trip theorem at `m2` and at the
colliding coefficient vector of `f3` and `j3`. -/
theorem doodson_round_trip_witness :
    (toDoodsonNumber [2, 0, 0, 0, 0, 0, 0]).bind fromDoodsonNumber =
      some ([2, 0, 0, 0, 0, 0, 0].take 6) ∧
    ((toExtendedDoodson [2, 0, 0, 0, 0, 0, 0]).bind
        fromExtendedDoodson).elim (Except.error "") toConstituentID =
      Except.ok "m2" ∧
    toConstituentID [3, 2, 0, 0, 0, 0, 0] =
      Except.error "ambiguous Doodson number" :=
  ⟨doodson_round_trip.1 ("m2", [2, 0, 0, 0, 0, 0, 0]) (by decide) (by decide)
     (by decide),
   doodson_round_trip.2.1 ("m2", [2, 0, 0, 0, 0, 0, 0]) (by decide) (by decide),
   doodson_round_trip.2.2.1 [3, 2, 0, 0, 0, 0, 0] (by decide)⟩

end PyTMD

namespace PyTMD

/-! ## Amplitude and phase extraction (`pyTMD/io/FES.py`,
`pyTMD/io/dataset.py`)

The per-point arithmetic that turns an interpolated complex harmonic
constant into an (amplitude, phase) pair, embedded over the real and
complex numbers.
-/

/-- Real two-argument arctangent, as the argument of the complex number
`x + i y`; the range is the interval from `-pi` (excluded) to `pi`
(included), as for the numpy function. -/
noncomputable def arctan2 (y x : ℝ) : ℝ := Complex.arg ⟨x, y⟩

/-- Amplitude computed by `extract_constants` and
`interpolate_constants` in `pyTMD/io/FES.py`: the complex modulus of the
interpolated harmonic constant times the scale factor
(`np.abs(hci.data)*kwargs['scale']`). -/
noncomputable def fesAmplitude (scale : ℝ) (hc : ℂ) : ℝ :=
  Complex.abs hc * scale

/-- Phase computed by `extract_constants` and `interpolate_constants` in
`pyTMD/io/FES.py`: `arctan2(-imag, real)` converted to degrees, with
negative values shifted by `+360`. -/
noncomputable def fesPhase (hc : ℂ) : ℝ :=
  let deg := arctan2 (-hc.im) hc.re * 180 / Real.pi
  if deg < 0 then deg + 360 else deg

/-- Amplitude computed by the `DataArray` accessor in
`pyTMD/io/dataset.py`: the square root of the sum of squares of the real
and imaginary parts. -/
noncomputable def dataArrayAmplitude (hc : ℂ) : ℝ :=
  Real.sqrt (hc.re ^ 2 + hc.im ^ 2)

/-- Phase computed by the `DataArray` accessor in `pyTMD/io/dataset.py`:
degrees of `arctan2(-imag, real)`, kept where non-negative and shifted by
`+360` elsewhere. -/
noncomputable def dataArrayPhase (hc : ℂ) : ℝ :=
  let ph := arctan2 (-hc.im) hc.re * 180 / Real.pi
  if ph ≥ 0 then ph else ph + 360

/-- The two-argument arctangent of `(-im, re)` is the argument of the
complex conjugate. -/
theorem arctan2_neg_im_re (hc : ℂ) :
    arctan2 (-hc.im) hc.re = Complex.arg ((starRingEnd ℂ) hc) := by
  unfold arctan2
  congr 1

/-- Bounds on the degree form of the extracted phase. -/
theorem phase_deg_bounds (hc : ℂ) :
    -180 < arctan2 (-hc.im) hc.re * 180 / Real.pi ∧
      arctan2 (-hc.im) hc.re * 180 / Real.pi ≤ 180 := by
  have hpi := Real.pi_pos
  have h1 : -Real.pi < arctan2 (-hc.im) hc.re := by
    rw [arctan2_neg_im_re]; exact Complex.neg_pi_lt_arg _
  have h2 : arctan2 (-hc.im) hc.re ≤ Real.pi := by
    rw [arctan2_neg_im_re]; exact Complex.arg_le_pi _
  constructor
  · rw [lt_div_iff₀ hpi]
    nlinarith
  · rw [div_le_iff₀ hpi]
    nlinarith

end PyTMD

namespace PyTMD

/-- C4: every (amplitude, phase) pair produced from a complex harmonic
constant satisfies amplitude non-negative (the amplitude is a complex
modulus times the non-negative unit scale) and phase within the interval
from 0 (inclusive) to 360 degrees (exclusive), in both the legacy
`FES.extract_constants`/`interpolate_constants` path and the xarray
`DataArray` accessor. -/
theorem amplitude_phase_invariant (scale : ℝ) (hs : 0 ≤ scale) (hc : ℂ) :
    (0 ≤ fesAmplitude scale hc ∧
      0 ≤ fesPhase hc ∧ fesPhase hc < 360) ∧
    (0 ≤ dataArrayAmplitude hc ∧
      0 ≤ dataArrayPhase hc ∧ dataArrayPhase hc < 360) := by
  obtain ⟨hlow, hhigh⟩ := phase_deg_bounds hc
  refine ⟨⟨mul_nonneg (Complex.abs.nonneg hc) hs, ?_, ?_⟩,
          ⟨Real.sqrt_nonneg _, ?_, ?_⟩⟩ <;>
    simp only [fesPhase, dataArrayPhase] <;>
    split <;> linarith

/-- Witness for the amplitude/phase invariant at scale 1 and the
harmonic constant `-i` (phase 90 degrees). -/
theorem amplitude_phase_invariant_witness :
    (0 ≤ fesAmplitude 1 (-Complex.I) ∧
      0 ≤ fesPhase (-Complex.I) ∧ fesPhase (-Complex.I) < 360) ∧
    (0 ≤ dataArrayAmplitude (-Complex.I) ∧
      0 ≤ dataArrayPhase (-Complex.I) ∧ dataArrayPhase (-Complex.I) < 360) :=
  amplitude_phase_invariant 1 zero_le_one (-Complex.I)

end PyTMD

namespace PyTMD

/-- The complex number of modulus `abs z` and argument `arg (conj z)`
taken with a negative sign in the exponential recovers `z`. -/
theorem abs_mul_exp_neg_arg_conj (z : ℂ) :
    (Complex.abs z : ℂ) *
      Complex.exp (-Complex.I * (Complex.arg ((starRingEnd ℂ) z))) = z := by
  have h := Complex.abs_mul_exp_arg_mul_I ((starRingEnd ℂ) z)
  have h2 := congrArg (starRingEnd ℂ) h
  rw [map_mul, Complex.conj_conj, Complex.conj_ofReal, ← Complex.exp_conj,
    map_mul, Complex.conj_ofReal, Complex.conj_I, Complex.abs_conj] at h2
  rw [show -Complex.I * ((Complex.arg ((starRingEnd ℂ) z) : ℝ) : ℂ) =
      ((Complex.arg ((starRingEnd ℂ) z) : ℝ) : ℂ) * -Complex.I by ring]
  exact h2

/-- A shift of the phase angle by a full turn leaves the complex
exponential unchanged. -/
theorem exp_neg_I_two_pi_shift (a : ℝ) :
    Complex.exp (-Complex.I * ((a + 2 * Real.pi : ℝ) : ℂ)) =
      Complex.exp (-Complex.I * (a : ℝ)) := by
  push_cast
  rw [show -Complex.I * ((a : ℂ) + 2 * (Real.pi : ℂ)) =
      -Complex.I * (a : ℂ) + -(2 * (Real.pi : ℂ) * Complex.I) by ring]
  rw [Complex.exp_add, Complex.exp_neg, Complex.exp_two_pi_mul_I, inv_one,
    mul_one]

/-- C6: the internal harmonic-constant convention is
amplitude times `exp` of minus `i` times the phase in radians: for every
complex harmonic constant, rebuilding it from the extracted amplitude and
phase (the phase being the two-argument arctangent of `(-Im, Re)`,
normalised to degrees) recovers the constant exactly; the xarray accessor
extracts the same phase and amplitude as the legacy path. -/
theorem harmonic_constant_convention (hc : ℂ) :
    ((fesAmplitude 1 hc : ℝ) : ℂ) *
      Complex.exp (-Complex.I * ((fesPhase hc * Real.pi / 180 : ℝ) : ℂ))
        = hc ∧
    fesPhase hc = dataArrayPhase hc ∧
    dataArrayAmplitude hc = fesAmplitude 1 hc := by
  have hπ : (Real.pi : ℝ) ≠ 0 := Real.pi_ne_zero
  have key := abs_mul_exp_neg_arg_conj hc
  have haa := arctan2_neg_im_re hc
  refine ⟨?_, ?_, ?_⟩
  · unfold fesAmplitude fesPhase
    rw [mul_one]
    simp only
    split
    · rename_i h
      rw [show ((arctan2 (-hc.im) hc.re * 180 / Real.pi + 360) * Real.pi
          / 180 : ℝ) = arctan2 (-hc.im) hc.re + 2 * Real.pi by
            field_simp; ring]
      rw [exp_neg_I_two_pi_shift, haa]
      exact key
    · rw [show ((arctan2 (-hc.im) hc.re * 180 / Real.pi) * Real.pi / 180 : ℝ)
          = arctan2 (-hc.im) hc.re by field_simp]
      rw [haa]
      exact key
  · simp only [fesPhase, dataArrayPhase]
    rcases lt_or_ge (arctan2 (-hc.im) hc.re * 180 / Real.pi) 0 with h | h
    · rw [if_pos h, if_neg (by linarith)]
    · rw [if_neg (by linarith), if_pos (by linarith)]
  · unfold dataArrayAmplitude fesAmplitude
    rw [mul_one, Complex.abs_apply, Complex.normSq_apply]
    congr 1
    ring

end PyTMD

namespace PyTMD

/-! ## Delta-time dispatch (`pyTMD/compute.py`)

`tide_elevations` and `tide_currents` choose the TT minus UT1 array that
they pass to prediction and minor-constituent inference from the
effective nodal-corrections convention alone.
-/

/-- The nodal-correction conventions of the legacy OTIS family, for which
the delta-time array is zeroed (`pyTMD/compute.py`, in both
`tide_elevations` and `tide_currents`). -/
def otisFamily : List String := ["OTIS", "ATLAS", "TMD3", "netcdf"]

/-- The effective nodal-corrections convention: the caller-supplied
`CORRECTIONS` string when truthy, else the model's own convention
(`nodal_corrections = CORRECTIONS or model.corrections`; the empty string
is falsy in Python). -/
def effectiveCorrections (CORRECTIONS : Option String)
    (model_corrections : String) : String :=
  match CORRECTIONS with
  | some c => if c = "" then model_corrections else c
  | none => model_corrections

/-- The delta-time selection of `tide_elevations` in `pyTMD/compute.py`:
an all-zero array of the shape of `ts.tt_ut1` for the OTIS family of
conventions, the interpolated TT minus UT1 values otherwise. -/
def tideElevationsDeltat (CORRECTIONS : Option String)
    (model_corrections : String) (tt_ut1 : List ℝ) : List ℝ :=
  if effectiveCorrections CORRECTIONS model_corrections ∈ otisFamily then
    tt_ut1.map (fun _ => 0)
  else
    tt_ut1

/-- The delta-time selection of `tide_currents` in `pyTMD/compute.py`
(textually identical to the one in `tide_elevations`). -/
def tideCurrentsDeltat (CORRECTIONS : Option String)
    (model_corrections : String) (tt_ut1 : List ℝ) : List ℝ :=
  if effectiveCorrections CORRECTIONS model_corrections ∈ otisFamily then
    tt_ut1.map (fun _ => 0)
  else
    tt_ut1

/-- C7: in `tide_elevations` and `tide_currents`, the delta-time array
passed on to prediction is identically zero exactly when the effective
nodal-corrections convention is one of OTIS, ATLAS, TMD3 or netcdf, and
is the interpolated TT minus UT1 array for every other convention; the
choice depends only on the corrections string (supplied by the caller or
inherited from the model), never on a separate caller request. -/
theorem deltat_zero_for_otis_family (CORRECTIONS : Option String)
    (model_corrections : String) (tt_ut1 : List ℝ) :
    tideElevationsDeltat CORRECTIONS model_corrections tt_ut1 =
      (if effectiveCorrections CORRECTIONS model_corrections ∈ otisFamily
        then List.replicate tt_ut1.length 0 else tt_ut1) ∧
    tideCurrentsDeltat CORRECTIONS model_corrections tt_ut1 =
      tideElevationsDeltat CORRECTIONS model_corrections tt_ut1 := by
  constructor
  · unfold tideElevationsDeltat
    split
    · simp
    · rfl
  · rfl

end PyTMD

namespace PyTMD

/-! ## Constituent listing of the `Dataset` accessor
(`pyTMD/io/dataset.py`)

The `constituents` property iterates over the data variables of the
dataset, parses each name with `pyTMD.io.constituents.parse`, and catches
the `ValueError` raised for an unresolvable name with `pass`, so that
such variables are omitted from the listing rather than failing it.
`parseName` above models the parser (an unresolvable name, raising
`ValueError` in Python, is `none` here); the `try`/`except`/`pass` loop
is exactly a `filterMap`.
-/

/-- The `Dataset.constituents` property of `pyTMD/io/dataset.py`: parse
every data-variable name, silently skipping the ones that fail to
resolve. -/
def datasetConstituents (data_vars : List String) : List String :=
  data_vars.filterMap parseName

/-- C8, counterexample: listing the constituents of a dataset having an
unresolvable variable name does not fail; it returns the resolvable
constituents and silently omits the unresolvable name, contradicting the
claim that an unresolvable variable name is fatal to the listing
operation. -/
theorem dataset_constituents_omits_counterexample :
    parseName "blob7" = none ∧
    datasetConstituents ["m2", "blob7"] = ["m2"] := by
  constructor
  · decide
  · decide

/-- C8, amended: a name that fails to resolve is an error of the parser
itself (never mapped to a default constituent), but `Dataset.constituents`
catches that error and silently omits the unresolvable variable from the
listing rather than failing: appending an unresolvable variable name to a
dataset leaves the constituent listing unchanged, and a dataset holding
only unresolvable names yields the empty listing. -/
theorem dataset_constituents_omit_unresolvable (data_vars : List String)
    (n : String) (hn : parseName n = none) :
    datasetConstituents (data_vars ++ [n]) = datasetConstituents data_vars ∧
    datasetConstituents [n] = [] := by
  constructor
  · unfold datasetConstituents
    rw [List.filterMap_append]
    simp [hn]
  · unfold datasetConstituents
    simp [hn]

/-- Witness for the amended listing theorem, at a dataset with the data
variables `m2` and the unresolvable `blob7`. -/
theorem dataset_constituents_omit_unresolvable_witness :
    datasetConstituents (["m2"] ++ ["blob7"]) = datasetConstituents ["m2"] ∧
    datasetConstituents ["blob7"] = [] :=
  dataset_constituents_omit_unresolvable ["m2"] "blob7" (by decide)

end PyTMD

namespace PyTMD

/-! ## Harmonic prediction with masked propagation

Modelled from the spec: the `pyTMD.predict` module is not among the
provided sources.  The spec (sections 4.4 and 8) describes prediction as
the sum over constituents of
`f_c(t) * amplitude_c * cos(argument_c - phase_c)` (equivalently the real
part of `hc_c * f_c * exp(i (G_c + u_c))`), with a masked (invalid)
harmonic constant at a point propagating to a masked output at that point
rather than to zero or to an error, while points whose inputs are all
valid still produce valid results in the same batch.  A masked numpy
entry is modelled as `none`.
-/

/-- One constituent's contribution to the predicted signal: nodal factor
times the real part of the harmonic constant rotated by the equilibrium
argument plus the nodal phase. -/
noncomputable def constituentTerm (hc : ℂ) (f u G : ℝ) : ℝ :=
  f * (hc * Complex.exp (Complex.I * ((G + u : ℝ) : ℂ))).re

/-- The harmonic sum over a point's valid harmonic constants; `f`, `u`
and `G` give each constituent's nodal factor, nodal angle and equilibrium
argument. -/
noncomputable def harmonicSum (f u G : ℕ → ℝ) (hcs : List ℂ) : ℝ :=
  (List.zipWith (fun i hc => constituentTerm hc (f i) (u i) (G i))
    (List.range hcs.length) hcs).sum

/-- Collect a point's harmonic constants when all are valid; a single
masked entry masks the whole point. -/
def allValid : List (Option ℂ) → Option (List ℂ)
  | [] => some []
  | none :: _ => none
  | some x :: rest => (allValid rest).map (fun l => x :: l)

/-- Modelled from the spec: prediction at one spatial point.  Masked
output (`none`) when any contributing harmonic constant is masked, the
harmonic sum otherwise. -/
noncomputable def predictPoint (f u G : ℕ → ℝ)
    (hcs : List (Option ℂ)) : Option ℝ :=
  (allValid hcs).map (harmonicSum f u G)

/-- Modelled from the spec: prediction over a batch of points, evaluated
pointwise. -/
noncomputable def predictBatch (f u G : ℕ → ℝ)
    (batch : List (List (Option ℂ))) : List (Option ℝ) :=
  batch.map (predictPoint f u G)

/-- A masked entry masks the collected point. -/
theorem allValid_none {hcs : List (Option ℂ)} (h : none ∈ hcs) :
    allValid hcs = none := by
  induction hcs with
  | nil => cases h
  | cons a rest ih =>
    cases a with
    | none => rfl
    | some x =>
      have hr : none ∈ rest := by
        rcases List.mem_cons.mp h with h1 | h2
        · exact absurd h1 (by simp)
        · exact h2
      simp [allValid, ih hr]

/-- A point whose entries are all valid is collected successfully. -/
theorem allValid_isSome {hcs : List (Option ℂ)}
    (h : ∀ x ∈ hcs, x.isSome) : (allValid hcs).isSome := by
  induction hcs with
  | nil => rfl
  | cons a rest ih =>
    cases a with
    | none => exact absurd (h none (by simp)) (by simp)
    | some x =>
      have := ih (fun y hy => h y (by simp [hy]))
      simpa [allValid, Option.isSome_map'] using this

/-- The batch prediction returns one output per input point. -/
theorem predictBatch_length (f u G : ℕ → ℝ)
    (batch : List (List (Option ℂ))) :
    (predictBatch f u G batch).length = batch.length :=
  List.length_map _ _

/-- C5: if any contributing harmonic constant at a point of a batch is
masked then the predicted output at that point is masked (not zero, not
an error), regardless of the other constituents; a point of the same
batch whose harmonic constants are all valid still receives a valid
(non-masked) output, so mixed validity does not fail the batch. -/
theorem masked_propagation (f u G : ℕ → ℝ)
    (batch : List (List (Option ℂ))) (i : ℕ) (hi : i < batch.length) :
    (none ∈ batch.get ⟨i, hi⟩ →
      (predictBatch f u G batch).get
        ⟨i, (predictBatch_length f u G batch).symm ▸ hi⟩ = none) ∧
    ((∀ x ∈ batch.get ⟨i, hi⟩, Option.isSome x) →
      ((predictBatch f u G batch).get
        ⟨i, (predictBatch_length f u G batch).symm ▸ hi⟩).isSome) := by
  have hget : (predictBatch f u G batch).get
      ⟨i, (predictBatch_length f u G batch).symm ▸ hi⟩ =
      predictPoint f u G (batch.get ⟨i, hi⟩) := by
    simp [predictBatch]
  constructor
  · intro hnone
    rw [hget]
    unfold predictPoint
    rw [allValid_none hnone]
    rfl
  · intro hall
    rw [hget]
    unfold predictPoint
    have := allValid_isSome hall
    simpa [Option.isSome_map'] using this

/-- Witness for the masked-propagation theorem on a mixed two-point
batch: the point holding a masked constituent is masked in the output,
the all-valid point of the same batch is valid. -/
theorem masked_propagation_witness :
    (predictBatch (fun _ => 1) (fun _ => 0) (fun _ => 0)
        [[some 1, none], [some 1, some 2]]).get
      ⟨0, (predictBatch_length (fun _ => 1) (fun _ => 0) (fun _ => 0)
        [[some 1, none], [some 1, some 2]]).symm ▸ (by norm_num)⟩ = none ∧
    ((predictBatch (fun _ => 1) (fun _ => 0) (fun _ => 0)
        [[some 1, none], [some 1, some 2]]).get
      ⟨1, (predictBatch_length (fun _ => 1) (fun _ => 0) (fun _ => 0)
        [[some 1, none], [some 1, some 2]]).symm ▸ (by norm_num)⟩).isSome :=
  ⟨(masked_propagation (fun _ => 1) (fun _ => 0) (fun _ => 0)
      [[some 1, none], [some 1, some 2]] 0 (by norm_num)).1 (by simp),
   (masked_propagation (fun _ => 1) (fun _ => 0) (fun _ => 0)
      [[some 1, none], [some 1, some 2]] 1 (by norm_num)).2
    (by intro x hx; rcases List.mem_cons.mp hx with rfl | h2
        · rfl
        · rcases List.mem_cons.mp h2 with rfl | h3
          · rfl
          · cases h3)⟩

end PyTMD

namespace PyTMD

/-! ## Regular-grid interpolation branch of `pyTMD/io/FES.py`

For the `linear` and `nearest` methods, `extract_constants` constructs
`scipy.interpolate.RegularGridInterpolator((lat, lon), hc.data, ...)` and
evaluates it at `np.c_[ilat, ilon]` (`pyTMD/io/FES.py`, lines 265 to
276); the model grids `hc` are shaped `(nlat, nlon)` (see
`read_ascii_file`/`read_netcdf_file` and the transposes in the spline
branch).  `interpolate_constants` instead constructs the interpolator
with the axes tuple `(lon, lat)` while keeping the same `(nlat, nlon)`
data and the same `np.c_[ilat, ilon]` query order (lines 488 to 497).
`scipy` requires each points axis to have as many entries as the
corresponding dimension of the values array, and raises otherwise.
Grid coordinates and values are idealised as integers (the divergence is
a shape mismatch and does not depend on the scalar type); evaluation is
modelled for the `nearest` method.
-/

/-- A constructed regular-grid interpolator: two coordinate axes and a
row-major value matrix. -/
structure RegularGrid where
  axis1 : List ℤ
  axis2 : List ℤ
  values : List (List ℤ)
  deriving DecidableEq, Repr

/-- Construction of `scipy.interpolate.RegularGridInterpolator`: each
points axis must have exactly as many entries as the corresponding
dimension of the values array, else the constructor raises. -/
def regularGridInterpolator (p1 p2 : List ℤ) (values : List (List ℤ)) :
    Except String RegularGrid :=
  if values.length = p1.length ∧
      values.all (fun row => row.length = p2.length) then
    Except.ok ⟨p1, p2, values⟩
  else
    Except.error "points-values dimension mismatch"

/-- Distance between a grid coordinate and a query coordinate. -/
def coordDist (a x : ℤ) : ℕ := (a - x).natAbs

/-- Index of the axis entry nearest to the query coordinate. -/
def nearestIndex (axis : List ℤ) (x : ℤ) : ℕ :=
  (List.range axis.length).foldl
    (fun best i =>
      if coordDist (axis.getD i 0) x < coordDist (axis.getD best 0) x
      then i else best) 0

/-- Nearest-neighbour evaluation of a constructed interpolator at the
query point `(q1, q2)` given in axis order. -/
def RegularGrid.nearest (g : RegularGrid) (q1 q2 : ℤ) : ℤ :=
  (g.values.getD (nearestIndex g.axis1 q1) []).getD
    (nearestIndex g.axis2 q2) 0

/-- The regular-grid branch of `extract_constants` in `pyTMD/io/FES.py`:
axes `(lat, lon)`, values `hc`, query `(ilat, ilon)`. -/
def extractConstantsGrid (lat lon : List ℤ) (hc : List (List ℤ))
    (ilat ilon : ℤ) : Except String ℤ :=
  (regularGridInterpolator lat lon hc).map
    (fun g => g.nearest ilat ilon)

/-- The regular-grid branch of `interpolate_constants` in
`pyTMD/io/FES.py`: axes `(lon, lat)`, the same values `hc` and the same
query `(ilat, ilon)`. -/
def interpolateConstantsGrid (lat lon : List ℤ) (hc : List (List ℤ))
    (ilat ilon : ℤ) : Except String ℤ :=
  (regularGridInterpolator lon lat hc).map
    (fun g => g.nearest ilat ilon)

/-- C10: on a non-square model grid (2 latitudes, 3 longitudes) the
one-shot `extract_constants` regular-grid path interpolates successfully
while the two-step `read_constants` plus `interpolate_constants` path
fails at interpolator construction, because `interpolate_constants`
passes the axes as `(lon, lat)` against data shaped `(nlat, nlon)`; the
two public extraction paths therefore disagree for the `nearest` (and
`linear`) method, where equality within float16 epsilon was claimed. -/
theorem extract_interpolate_divergence :
    extractConstantsGrid [0, 1] [0, 1, 2] [[1, 2, 3], [4, 5, 6]] 0 0 =
      Except.ok 1 ∧
    interpolateConstantsGrid [0, 1] [0, 1, 2] [[1, 2, 3], [4, 5, 6]] 0 0 =
      Except.error "points-values dimension mismatch" ∧
    interpolateConstantsGrid [0, 1] [0, 1, 2] [[1, 2, 3], [4, 5, 6]] 0 0 ≠
      extractConstantsGrid [0, 1] [0, 1, 2] [[1, 2, 3], [4, 5, 6]] 0 0 := by
  refine ⟨by decide, by decide, by decide⟩

end PyTMD
